import Mathlib

/-!
# Verification of the vehicular-combat core (health, weapon, projectile, collision pass)

Shallow embedding of the game's simulation core, translated from the
TypeScript sources:

* `HealthSystem`   — src/unnamed/part_004 (`Health.ts`)
* `Bullet`         — src/client/src/game/Bullet.ts
* `WeaponSystem`   — src/client/src/game/Weapon.ts (pooled variant)
* `Car`            — src/unnamed/part_002 (`Car.ts` with health/weapon systems)
* `Game`           — src/client/src/game/Game.ts (update loop, collision pass)

Numbers are embedded as `ℚ`.  The source compares Euclidean distances
(floating-point square roots) only against non-negative thresholds, so every
such comparison is embedded square-root-free: `dist p q ≤ r` for a rational
threshold `r` becomes `distSq p q ≤ r^2`, and `dist ≤ sqrt B + 1/2` (the
broad-phase sphere test, whose radius is itself a distance) becomes the
equivalent rational condition proved sound in `sqrtLeSqrtAddHalf_correct`.
-/

set_option autoImplicit false

/-- 3D vector with rational components (embedding of `THREE.Vector3`). -/
structure Vec3 where
  x : ℚ
  y : ℚ
  z : ℚ
  deriving DecidableEq, Repr

def Vec3.zero : Vec3 := ⟨0, 0, 0⟩

def Vec3.add (a b : Vec3) : Vec3 := ⟨a.x + b.x, a.y + b.y, a.z + b.z⟩

def Vec3.sub (a b : Vec3) : Vec3 := ⟨a.x - b.x, a.y - b.y, a.z - b.z⟩

def Vec3.smul (c : ℚ) (a : Vec3) : Vec3 := ⟨c * a.x, c * a.y, c * a.z⟩

/-- Squared Euclidean length. -/
def Vec3.normSq (a : Vec3) : ℚ := a.x ^ 2 + a.y ^ 2 + a.z ^ 2

/-- Squared Euclidean distance (`THREE.Vector3.distanceTo`, squared). -/
def Vec3.distSq (a b : Vec3) : ℚ := (a.sub b).normSq

/-- Square-root-free embedding of the broad-phase test
`sqrt A ≤ sqrt B + 1/2` for non-negative rationals `A` (squared
point-to-center distance) and `B` (squared bounding-sphere radius).
`sqrtLeSqrtAddHalf_correct` proves it equivalent to the real-valued test. -/
def sqrtLeSqrtAddHalf (A B : ℚ) : Bool :=
  decide (A ≤ B + 1/4) || decide ((A - B - 1/4) ^ 2 ≤ B)

theorem sqrtLeSqrtAddHalf_correct (A B : ℚ) (hA : 0 ≤ A) (hB : 0 ≤ B) :
    sqrtLeSqrtAddHalf A B = true ↔
      Real.sqrt (A : ℝ) ≤ Real.sqrt (B : ℝ) + 1/2 := by
  have hBR : (0:ℝ) ≤ (B:ℝ) := by exact_mod_cast hB
  have hAR : (0:ℝ) ≤ (A:ℝ) := by exact_mod_cast hA
  have hsqB : Real.sqrt (B:ℝ) ^ 2 = (B:ℝ) := Real.sq_sqrt hBR
  have hsqA : Real.sqrt (A:ℝ) ^ 2 = (A:ℝ) := Real.sq_sqrt hAR
  have hsqrtB : 0 ≤ Real.sqrt (B:ℝ) := Real.sqrt_nonneg _
  have hsqrtA : 0 ≤ Real.sqrt (A:ℝ) := Real.sqrt_nonneg _
  constructor
  · intro h
    rcases Bool.or_eq_true_iff.mp h with h' | h'
    · have h1q : A ≤ B + 1/4 := of_decide_eq_true h'
      have h1 : (A:ℝ) ≤ (B:ℝ) + 1/4 := by
        have h2 := (Rat.cast_le (K := ℝ)).mpr h1q
        push_cast at h2
        linarith
      have h2 : (A:ℝ) ≤ (Real.sqrt (B:ℝ) + 1/2) ^ 2 := by nlinarith
      calc Real.sqrt (A:ℝ) ≤ Real.sqrt ((Real.sqrt (B:ℝ) + 1/2) ^ 2) :=
            Real.sqrt_le_sqrt h2
        _ = Real.sqrt (B:ℝ) + 1/2 := by
            rw [Real.sqrt_sq (by positivity)]
    · have h1q : (A - B - 1/4) ^ 2 ≤ B := of_decide_eq_true h'
      have h1 : ((A:ℝ) - B - 1/4) ^ 2 ≤ (B:ℝ) := by
        have h2 := (Rat.cast_le (K := ℝ)).mpr h1q
        push_cast at h2
        nlinarith [h2]
      have h2 : (A:ℝ) - B - 1/4 ≤ Real.sqrt (B:ℝ) := by
        rcases le_or_lt ((A:ℝ) - B - 1/4) 0 with hle | hpos
        · linarith
        · exact (Real.le_sqrt (le_of_lt hpos) hBR).mpr h1
      have h3 : (A:ℝ) ≤ (Real.sqrt (B:ℝ) + 1/2) ^ 2 := by nlinarith
      calc Real.sqrt (A:ℝ) ≤ Real.sqrt ((Real.sqrt (B:ℝ) + 1/2) ^ 2) :=
            Real.sqrt_le_sqrt h3
        _ = Real.sqrt (B:ℝ) + 1/2 := by
            rw [Real.sqrt_sq (by positivity)]
  · intro h
    have h2 : (A:ℝ) ≤ (B:ℝ) + Real.sqrt (B:ℝ) + 1/4 := by nlinarith
    have h3 : (A:ℝ) - B - 1/4 ≤ Real.sqrt (B:ℝ) := by linarith
    rcases le_or_lt (A - B - 1/4 : ℚ) 0 with hle | hpos
    · have : A ≤ B + 1/4 := by linarith
      exact Bool.or_eq_true_iff.mpr (Or.inl (decide_eq_true this))
    · have hposR : (0:ℝ) < (A:ℝ) - B - 1/4 := by
        have h4 := (Rat.cast_lt (K := ℝ)).mpr hpos
        push_cast at h4
        linarith
      have h4 : ((A:ℝ) - B - 1/4) ^ 2 ≤ (B:ℝ) := by nlinarith
      have h5 : (((A - B - 1/4) ^ 2 : ℚ) : ℝ) ≤ ((B : ℚ) : ℝ) := by
        push_cast
        nlinarith [h4]
      exact Bool.or_eq_true_iff.mpr
        (Or.inr (decide_eq_true ((Rat.cast_le (K := ℝ)).mp h5)))

/-- `enum BulletType` from Weapon.ts. -/
inductive BulletType where
  | NORMAL
  | EXPLOSIVE
  | LASER
  | MISSILE
  deriving DecidableEq, Repr

/-- Per-type projectile speed (the `switch` in the `Bullet` constructor and in
`Bullet.reset`). -/
def bulletSpeed : BulletType → ℚ
  | .EXPLOSIVE => 40
  | .LASER => 80
  | .MISSILE => 30
  | .NORMAL => 50

/-! ## HealthSystem — src/unnamed/part_004 -/

structure HealthSystem where
  maxHealth : ℚ
  currentHealth : ℚ
  armor : ℚ
  isDestroyed : Bool
  deriving DecidableEq, Repr

/-- `new HealthSystem(maxHealth)`. -/
def HealthSystem.init (maxHealth : ℚ) : HealthSystem :=
  { maxHealth := maxHealth
    currentHealth := maxHealth
    armor := 0
    isDestroyed := false }

/-- `takeDamage(amount)`; returns the updated system and the boolean result
(the one-shot destruction signal). -/
def HealthSystem.takeDamage (s : HealthSystem) (amount : ℚ) :
    HealthSystem × Bool :=
  let actualDamage := max 1 (amount - s.armor)
  let currentHealth := max 0 (s.currentHealth - actualDamage)
  if currentHealth ≤ 0 ∧ s.isDestroyed = false then
    ({ s with currentHealth := currentHealth, isDestroyed := true }, true)
  else
    ({ s with currentHealth := currentHealth }, false)

/-- `heal(amount)`. -/
def HealthSystem.heal (s : HealthSystem) (amount : ℚ) : HealthSystem :=
  { s with currentHealth := min s.maxHealth (s.currentHealth + amount) }

/-- `addArmor(amount)` (`// Max armor is 50`). -/
def HealthSystem.addArmor (s : HealthSystem) (amount : ℚ) : HealthSystem :=
  { s with armor := min 50 (s.armor + amount) }

/-- `isAlive()`. -/
def HealthSystem.isAlive (s : HealthSystem) : Bool :=
  decide (s.currentHealth > 0)

/-! ## Bullet — src/client/src/game/Bullet.ts

The mesh/material/trail handling is rendering state and is omitted; the
simulation fields are embedded exactly.  The source stores the scalar
`distanceTraveled` and only ever compares it against the 200-unit travel cap;
since distances are non-negative we embed the squared distance
`distanceTraveledSq` and compare against `200 ^ 2`. -/

structure Bullet where
  position : Vec3
  startPosition : Vec3
  velocity : Vec3
  distanceTraveledSq : ℚ
  isActive : Bool
  type : BulletType
  damage : ℚ
  lifeTime : ℚ
  maxLifeTime : ℚ
  speed : ℚ
  deriving DecidableEq, Repr

/-- `Bullet.reset(position, direction, turretPosition, type, damage)`.
The source sets `velocity = direction.normalize().multiplyScalar(speed)`;
`THREE.Vector3.normalize` leaves the zero vector unchanged and rescales any
other vector to unit length.  We embed the velocity as `speed • direction`,
which agrees with the source exactly when `direction` is unit-length or zero —
the only cases arising in the verified claims (theorems that depend on the
velocity carry a `direction.normSq = 1` or `direction = Vec3.zero`
hypothesis). -/
def Bullet.reset (b : Bullet) (position direction turretPosition : Vec3)
    (type : BulletType) (damage : ℚ) : Bullet :=
  { b with
    type := type
    damage := damage
    isActive := true
    lifeTime := 0
    speed := bulletSpeed type
    position := turretPosition
    startPosition := position
    velocity := Vec3.smul (bulletSpeed type) direction
    distanceTraveledSq := 0 }

/-- `new Bullet(position, direction, turretPosition, type, damage)`: sets the
type-independent fields (`maxLifeTime = 5`) and delegates to `reset`. -/
def Bullet.create (position direction turretPosition : Vec3)
    (type : BulletType) (damage : ℚ) : Bullet :=
  Bullet.reset
    { position := Vec3.zero
      startPosition := Vec3.zero
      velocity := Vec3.zero
      distanceTraveledSq := 0
      isActive := true
      type := type
      damage := damage
      lifeTime := 0
      maxLifeTime := 5
      speed := bulletSpeed type }
    position direction turretPosition type damage

/-- `Bullet.update(delta)`: returns the updated bullet and the boolean result
(`true` = still active).  When the lifetime cap is hit the position is *not*
advanced (the source returns early), matching the source's control flow. -/
def Bullet.update (b : Bullet) (delta : ℚ) : Bullet × Bool :=
  if b.isActive = false then (b, false)
  else
    let b1 := { b with lifeTime := b.lifeTime + delta }
    if b1.lifeTime > b1.maxLifeTime then ({ b1 with isActive := false }, false)
    else
      let pos := b1.position.add (Vec3.smul delta b1.velocity)
      let b2 := { b1 with
        position := pos
        distanceTraveledSq := pos.distSq b1.startPosition }
      if b2.distanceTraveledSq > 200 ^ 2 then ({ b2 with isActive := false }, false)
      else (b2, true)

/-! ## WeaponSystem — src/client/src/game/Weapon.ts (pooled variant)

The `scene` handle and mesh visibility flips are rendering state and are
omitted.  The `setTimeout` scheduled by `fire` on overheat is modelled by the
`overheatClearAt` field recording the deadline (`fire time + 3` seconds) and by
the explicit event `overheatTimerFire`, which may run at any time past the
deadline (single-threaded deferred callback). -/

structure WeaponSystem where
  lastFireTime : ℚ
  cooldown : ℚ
  bulletType : BulletType
  damage : ℚ
  heatingLevel : ℚ
  overheated : Bool
  overheatClearAt : Option ℚ
  bulletPool : List Bullet
  maxPoolSize : ℕ
  coolingRate : ℚ
  autoRecovery : Bool
  deriving DecidableEq, Repr

/-- `new WeaponSystem()`. -/
def WeaponSystem.init : WeaponSystem :=
  { lastFireTime := 0
    cooldown := 1/2
    bulletType := .NORMAL
    damage := 10
    heatingLevel := 0
    overheated := false
    overheatClearAt := none
    bulletPool := []
    maxPoolSize := 50
    coolingRate := 1/20
    autoRecovery := true }

/-- `canFire()`; `currentTime` stands for `performance.now() / 1000`. -/
def WeaponSystem.canFire (s : WeaponSystem) (currentTime : ℚ) : Bool :=
  if s.overheated then false
  else decide (currentTime - s.lastFireTime ≥ s.cooldown)

/-- `getBulletFromPool()`: the first pool entry with `isActive` false, returned
together with its pool index (the source returns the object reference; the
index lets the embedding model the in-place reuse). -/
def WeaponSystem.findInactive : List Bullet → Option (ℕ × Bullet)
  | [] => none
  | b :: bs =>
      if b.isActive = false then some (0, b)
      else (WeaponSystem.findInactive bs).map (fun p => (p.1 + 1, p.2))

/-- `fire(position, direction, turretPosition)`: returns the updated system and
the emitted bullet, if any.  On success the fire timestamp is recorded, heat
increases by 0.2, overheating latches at heat ≥ 1 (scheduling the 3-second
clear), and the bullet is drawn from the pool (reset in place) or freshly
allocated when the pool has no inactive entry. -/
def WeaponSystem.fire (s : WeaponSystem) (currentTime : ℚ)
    (position direction turretPosition : Vec3) : WeaponSystem × Option Bullet :=
  if s.canFire currentTime = false then (s, none)
  else
    let s1 : WeaponSystem := { s with lastFireTime := currentTime }
    let heat : ℚ := s1.heatingLevel + 1/5
    let s2 : WeaponSystem :=
      if heat ≥ 1 then
        { s1 with
          heatingLevel := heat
          overheated := true
          overheatClearAt := some (currentTime + 3) }
      else { s1 with heatingLevel := heat }
    match WeaponSystem.findInactive s2.bulletPool with
    | none =>
        (s2, some (Bullet.create position direction turretPosition
          s2.bulletType s2.damage))
    | some (i, b) =>
        let b' := b.reset position direction turretPosition s2.bulletType s2.damage
        ({ s2 with bulletPool := s2.bulletPool.set i b' }, some b')

/-- `recycleBullet(bullet)`: below capacity the bullet is reset to defaults and
pushed into the pool; at capacity it is disposed.  The returned bullet is the
post-call state of the (shared, in the source reference-aliased) bullet object:
the reset value when pooled, the unchanged value when disposed (`dispose` only
releases rendering resources). -/
def WeaponSystem.recycleBullet (s : WeaponSystem) (b : Bullet) :
    WeaponSystem × Bullet :=
  if s.bulletPool.length < s.maxPoolSize then
    let b' := b.reset Vec3.zero Vec3.zero Vec3.zero .NORMAL 10
    ({ s with bulletPool := s.bulletPool ++ [b'] }, b')
  else
    (s, b)

/-- `update(delta)` (passive cooling); `currentTime` stands for
`performance.now() / 1000`. -/
def WeaponSystem.update (s : WeaponSystem) (currentTime delta : ℚ) : WeaponSystem :=
  if s.autoRecovery = true ∧ s.heatingLevel > 0 ∧ s.overheated = false
      ∧ currentTime - s.lastFireTime > s.cooldown * 2 then
    { s with heatingLevel := max 0 (s.heatingLevel - s.coolingRate * delta) }
  else s

/-- The damage assigned by `setBulletType`'s switch. -/
def bulletTypeDamage : BulletType → ℚ
  | .NORMAL => 10
  | .EXPLOSIVE => 30
  | .LASER => 15
  | .MISSILE => 40

/-- The cooldown assigned by `setBulletType`'s switch. -/
def bulletTypeCooldown : BulletType → ℚ
  | .NORMAL => 1/2
  | .EXPLOSIVE => 3/2
  | .LASER => 1/5
  | .MISSILE => 2

/-- `setBulletType(type)`. -/
def WeaponSystem.setBulletType (s : WeaponSystem) (type : BulletType) :
    WeaponSystem :=
  { s with
    bulletType := type
    damage := bulletTypeDamage type
    cooldown := bulletTypeCooldown type }

/-- The `setTimeout` callback scheduled by `fire` on overheat: clears the
overheated flag and resets the heat.  Guarded by the recorded deadline — the
host runs the callback only once its 3-second delay has elapsed. -/
def WeaponSystem.overheatTimerFire (s : WeaponSystem) (currentTime : ℚ) :
    WeaponSystem :=
  match s.overheatClearAt with
  | some c =>
      if currentTime ≥ c then
        { s with overheated := false, heatingLevel := 0, overheatClearAt := none }
      else s
  | none => s

/-! ### Weapon-system traces -/

/-- One observable weapon-system operation, each fire/cooling event tagged with
the wall-clock time (`performance.now() / 1000`) at which it runs. -/
inductive WeaponOp where
  | fire (t : ℚ) (position direction turretPosition : Vec3)
  | setBulletType (type : BulletType)
  | cool (t : ℚ) (delta : ℚ)
  | timer (t : ℚ)
  deriving DecidableEq, Repr

/-- Step the weapon system by one operation; only `fire` can emit a bullet. -/
def WeaponSystem.step (s : WeaponSystem) (op : WeaponOp) :
    WeaponSystem × Option Bullet :=
  match op with
  | .fire t p d tp => s.fire t p d tp
  | .setBulletType ty => (s.setBulletType ty, none)
  | .cool t δ => (s.update t δ, none)
  | .timer t => (s.overheatTimerFire t, none)

/-- Run a trace of operations. -/
def WeaponSystem.run (s : WeaponSystem) : List WeaponOp → WeaponSystem
  | [] => s
  | op :: ops => WeaponSystem.run (s.step op).1 ops

/-- The timestamp of the last successful fire along a trace started in `s`
(`acc` is the value reported when no fire in the trace succeeds). -/
def WeaponSystem.lastSuccessTimeAux (s : WeaponSystem) (acc : ℚ) :
    List WeaponOp → ℚ
  | [] => acc
  | op :: ops =>
      let acc' :=
        match op with
        | .fire t _ _ _ => if (s.step op).2.isSome then t else acc
        | .setBulletType _ => acc
        | .cool _ _ => acc
        | .timer _ => acc
      WeaponSystem.lastSuccessTimeAux (s.step op).1 acc' ops

/-- The timestamp of the last successful fire along a trace from the initial
weapon state, `0` (the initial `lastFireTime`) if none succeeded. -/
def lastSuccessTime (ops : List WeaponOp) : ℚ :=
  WeaponSystem.lastSuccessTimeAux WeaponSystem.init 0 ops

/-! ## Car — src/unnamed/part_002 (`Car.ts`, health/weapon variant)

Mesh construction, wheels and turret are rendering state; the physics
constants are the constructor's (`friction 0.98`, `turnFriction 0.95`,
`maxSpeed 25`).  The scalar speed `|velocity|` is only ever compared against
speed thresholds, so the comparisons are embedded on squares. -/

structure Car where
  position : Vec3
  velocity : Vec3
  healthSystem : HealthSystem
  weaponSystem : WeaponSystem
  bullets : List Bullet
  maxSpeed : ℚ
  friction : ℚ
  brakeForce : ℚ
  turnFriction : ℚ

/-- `new Car()` (physics constants from the constructor). -/
def Car.init : Car :=
  { position := ⟨0, 1, 0⟩
    velocity := Vec3.zero
    healthSystem := HealthSystem.init 100
    weaponSystem := WeaponSystem.init
    bullets := []
    maxSpeed := 25
    friction := 98/100
    brakeForce := 85/100
    turnFriction := 95/100 }

/-- `Car.update(delta)`: no-op when not alive; advances the position by
`velocity * delta`, then applies the tiered friction to the velocity
(extra 0.95 factors above 50% and 80% of max speed). -/
def Car.update (c : Car) (delta : ℚ) : Car :=
  if c.healthSystem.isAlive = false then c
  else
    let speedSq : ℚ := c.velocity.normSq
    let position := c.position.add (Vec3.smul delta c.velocity)
    let f1 : ℚ := c.friction
    let f2 : ℚ := if speedSq > (c.maxSpeed * (1/2)) ^ 2 then f1 * c.turnFriction else f1
    let f3 : ℚ := if speedSq > (c.maxSpeed * (8/10)) ^ 2 then f2 * (95/100) else f2
    { c with position := position, velocity := Vec3.smul f3 c.velocity }

/-- `Car.updateBullets(delta, terrain)`: updates each bullet, then drops it on
terrain collision or when its stored travel distance exceeds 200 (the
explosion particle effect on terrain hits is cosmetic and omitted). -/
def Car.updateBullets (c : Car) (delta : ℚ) (terrain : Vec3 → Bool) : Car :=
  { c with
    bullets := c.bullets.filterMap (fun b =>
      let b1 := (b.update delta).1
      if terrain b1.position then none
      else if b1.distanceTraveledSq > 200 ^ 2 then none
      else some b1) }

/-- `Car.takeDamage(amount)`: delegates to the health system (the explosion
effect on the destruction signal is cosmetic and omitted). -/
def Car.takeDamage (c : Car) (amount : ℚ) : Car :=
  { c with healthSystem := (c.healthSystem.takeDamage amount).1 }

/-! ## Collision pass — src/client/src/game/Game.ts

Enemy vehicles are passed into `Game` untyped (`enemies: any[]`); their class
is not part of this repository.  The collision pass touches only their mesh
bounds (`Box3.setFromObject(enemy.mesh)`), their `mesh.position` and their
`takeDamage` method, so an enemy is modelled by its position, its bounding-box
offsets relative to that position, and the list of damage amounts delivered to
it through `takeDamage` — the pass's only write to an enemy. -/

structure Enemy where
  position : Vec3
  boxOfsMin : Vec3
  boxOfsMax : Vec3
  received : List ℚ
  deriving DecidableEq, Repr

def Enemy.boxMin (e : Enemy) : Vec3 := e.position.add e.boxOfsMin

def Enemy.boxMax (e : Enemy) : Vec3 := e.position.add e.boxOfsMax

def Enemy.takeDamage (e : Enemy) (amount : ℚ) : Enemy :=
  { e with received := e.received ++ [amount] }

/-- Bounding box of a bullet mesh (`Box3.setFromObject(bullet.mesh)`): the
mesh geometry's half extents around the bullet position (sphere radius 0.1 for
NORMAL, 0.2 for EXPLOSIVE; 0.05 × 0.25 × 0.05 cylinder for LASER; 0.15 × 0.25
× 0.15 cone for MISSILE). -/
def bulletHalfExtents : BulletType → Vec3
  | .NORMAL => ⟨1/10, 1/10, 1/10⟩
  | .EXPLOSIVE => ⟨1/5, 1/5, 1/5⟩
  | .LASER => ⟨1/20, 1/4, 1/20⟩
  | .MISSILE => ⟨3/20, 1/4, 3/20⟩

def Bullet.boxMin (b : Bullet) : Vec3 := b.position.sub (bulletHalfExtents b.type)

def Bullet.boxMax (b : Bullet) : Vec3 := b.position.add (bulletHalfExtents b.type)

/-- `THREE.Box3.intersectsBox`: interval overlap on each axis (touching
boundaries intersect). -/
def boxIntersects (aMin aMax bMin bMax : Vec3) : Bool :=
  decide (aMin.x ≤ bMax.x) && decide (bMin.x ≤ aMax.x) &&
  decide (aMin.y ≤ bMax.y) && decide (bMin.y ≤ aMax.y) &&
  decide (aMin.z ≤ bMax.z) && decide (bMin.z ≤ aMax.z)

/-- `Game.checkBulletCollision(bullet, mesh)`: the narrow-phase box/box test. -/
def Game.checkBulletCollision (b : Bullet) (meshMin meshMax : Vec3) : Bool :=
  boxIntersects b.boxMin b.boxMax meshMin meshMax

/-- The per-enemy broad-phase bounding sphere of `checkBulletCollisions`:
center `(boxMin + boxMax) / 2`, radius `|boxMax - boxMin| / 2` (kept
squared). -/
def Game.enemyBounds (e : Enemy) : Vec3 × ℚ :=
  (Vec3.smul (1/2) (e.boxMin.add e.boxMax), e.boxMax.distSq e.boxMin / 4)

/-- The broad-phase quick rejection
`bulletPos.distanceTo(bounds.center) <= bounds.radius + 0.5`, embedded
square-root-free via `sqrtLeSqrtAddHalf`. -/
def Game.sphereQuickTest (bulletPos center : Vec3) (radiusSq : ℚ) : Bool :=
  sqrtLeSqrtAddHalf (bulletPos.distSq center) radiusSq

/-- Broad phase and narrow phase for one bullet against one enemy, in the
source's order. -/
def Game.bulletHitsEnemy (b : Bullet) (e : Enemy) : Bool :=
  Game.sphereQuickTest b.position (Game.enemyBounds e).1 (Game.enemyBounds e).2
    && Game.checkBulletCollision b e.boxMin e.boxMax

/-- `Game.createAreaEffect(position, 5, ...)` together with the effect callback
passed at the explosive-hit site: every enemy whose `mesh.position` is within
the 5-unit radius of the impact point takes `halfDamage`
(`bullet.getDamage() * 0.5` at the call site).  The expanding-ring visual is
cosmetic and omitted. -/
def Game.createAreaEffect (enemies : List Enemy) (impact : Vec3)
    (halfDamage : ℚ) : List Enemy :=
  enemies.map (fun e =>
    if e.position.distSq impact ≤ 5 ^ 2 then e.takeDamage halfDamage else e)

/-- Update the `i`-th entry of a list in place (reference mutation in the
source). -/
def listModify {α : Type} (l : List α) (i : ℕ) (f : α → α) : List α :=
  match l.get? i with
  | some a => l.set i (f a)
  | none => l

/-- Index of the first enemy the bullet hits (the source's `for ... of` loop
with `break` on the first passing broad+narrow phase test). -/
def Game.firstHitIdx (b : Bullet) : List Enemy → Option ℕ
  | [] => none
  | e :: es =>
      if Game.bulletHitsEnemy b e then some 0
      else (Game.firstHitIdx b es).map (fun n => n + 1)

/-- The body of the car-bullets loop of `Game.checkBulletCollisions` for one
bullet: skip inactive bullets; find the first enemy passing broad+narrow
phase (`break` after a hit); on an explosive hit run the area effect over all
enemies, then apply full damage to the struck enemy, mark the bullet inactive
and recycle it through the car's weapon system. -/
def Game.processCarBullet (enemies : List Enemy) (w : WeaponSystem)
    (b : Bullet) : List Enemy × WeaponSystem × Bullet :=
  if b.isActive = false then (enemies, w, b)
  else
    match Game.firstHitIdx b enemies with
    | none => (enemies, w, b)
    | some i =>
        let enemies1 :=
          if b.type = .EXPLOSIVE then
            Game.createAreaEffect enemies b.position (b.damage * (1/2))
          else enemies
        let enemies2 := listModify enemies1 i (fun e => e.takeDamage b.damage)
        let b1 := { b with isActive := false }
        let wb := w.recycleBullet b1
        (enemies2, wb.1, wb.2)

/-- The car-bullets half of `Game.checkBulletCollisions` (lines 316–351): each
bullet of the car is processed exactly once, threading the enemies list and
the car's weapon system; the returned bullet list holds the post-pass value of
each (in the source reference-aliased) bullet object.  The symmetric
enemy-bullets-versus-car half (lines 353–376) touches no state any claim
refers to and is omitted. -/
def Game.checkBulletCollisions (enemies : List Enemy) (w : WeaponSystem)
    (bullets : List Bullet) : List Enemy × WeaponSystem × List Bullet :=
  bullets.foldl
    (fun acc b =>
      let r := Game.processCarBullet acc.1 acc.2.1 b
      (r.1, r.2.1, acc.2.2 ++ [r.2.2]))
    (enemies, w, [])

/-! ## Power-ups and the game loop — src/client/src/game/Game.ts -/

/-- `enum PowerUpType` (values as used through `Object.values(PowerUpType)`
and the spec's data model). -/
inductive PowerUpType where
  | HEALTH
  | ARMOR
  | EXPLOSIVE_AMMO
  | LASER
  | MISSILE
  deriving DecidableEq, Repr

/-- Modelled from the spec: the `PowerUp` class (imported by Game.ts from
`./PowerUp`) is not part of the repository sources.  Per the spec a power-up
carries a position and a type; its `update(dt)` advances only a cosmetic
rotation/bob animation (excluded from correctness requirements), and
`apply(vehicle)` dispatches on the type — heal a fixed amount, add a fixed
armor amount, or switch the vehicle's weapon bullet type.  The fixed amounts
are not given numerically by the spec and are carried as the `amount`
field. -/
structure PowerUp where
  position : Vec3
  type : PowerUpType
  amount : ℚ
  deriving DecidableEq, Repr

/-- Modelled from the spec: `PowerUp.update(dt)` is cosmetic (rotation/bob);
no simulation-relevant state changes. -/
def PowerUp.update (p : PowerUp) (_delta : ℚ) : PowerUp := p

/-- Modelled from the spec: `PowerUp.apply(vehicle)` dispatches on the type. -/
def PowerUp.apply (p : PowerUp) (c : Car) : Car :=
  match p.type with
  | .HEALTH => { c with healthSystem := c.healthSystem.heal p.amount }
  | .ARMOR => { c with healthSystem := c.healthSystem.addArmor p.amount }
  | .EXPLOSIVE_AMMO =>
      { c with weaponSystem := c.weaponSystem.setBulletType .EXPLOSIVE }
  | .LASER => { c with weaponSystem := c.weaponSystem.setBulletType .LASER }
  | .MISSILE => { c with weaponSystem := c.weaponSystem.setBulletType .MISSILE }

/-- The world state threaded by `Game.update` (scene graph, camera, renderer
and HUD are rendering collaborators and are omitted).  `terrain` is the
external terrain collider `checkCollision`; `nextRandomPowerUp` stands for the
host-supplied `Math.random()` power-up produced by `spawnPowerUp` when the
10-second spawn timer fires. -/
structure GameState where
  lastTime : ℚ
  isGameActive : Bool
  car : Car
  enemies : List Enemy
  powerUps : List PowerUp
  powerUpSpawnTimer : ℚ
  terrain : Vec3 → Bool
  nextRandomPowerUp : PowerUp

/-- `Game.updatePowerUps(delta)`: cosmetic per-power-up update, pickup test
(`distanceTo(carPosition) < 2`, applying the effect to the car and removing
the power-up), then the 10-second spawn timer. -/
def Game.updatePowerUps (g : GameState) (delta : ℚ) : GameState :=
  let pus := g.powerUps.map (fun p => p.update delta)
  let carPos := g.car.position
  let picked := pus.foldl
    (fun (acc : Car × List PowerUp) p =>
      if p.position.distSq carPos < 2 ^ 2 then (p.apply acc.1, acc.2)
      else (acc.1, acc.2 ++ [p]))
    (g.car, [])
  let timer : ℚ := g.powerUpSpawnTimer + delta
  if timer > 10 then
    { g with
      car := picked.1
      powerUps := picked.2 ++ [g.nextRandomPowerUp]
      powerUpSpawnTimer := 0 }
  else
    { g with
      car := picked.1
      powerUps := picked.2
      powerUpSpawnTimer := timer }

/-- `Game.update(time)` (the per-frame tick): clamps the frame delta to at
most 0.1 s, records `lastTime`, and — while the game is active — runs car
physics, bullet integration, the collision pass, and the power-up pass, in the
source's order.  Enemy internals (`enemy.update`, `enemy.updateBullets`) are
external to the repository and mutate no embedded state; controls, HUD and
rendering are excluded collaborators. -/
def Game.update (g : GameState) (time : ℚ) : GameState :=
  let delta : ℚ := min ((time - g.lastTime) / 1000) (1/10)
  let g1 : GameState := { g with lastTime := time }
  if g1.isGameActive = false then g1
  else
    let car1 := g1.car.update delta
    let car2 := car1.updateBullets delta g1.terrain
    let r := Game.checkBulletCollisions g1.enemies car2.weaponSystem car2.bullets
    let car3 : Car := { car2 with weaponSystem := r.2.1, bullets := r.2.2 }
    Game.updatePowerUps { g1 with car := car3, enemies := r.1 } delta

/-! ## Claims about the Health Model -/

/-- C1: for every damage amount `a` and armor `r = s.armor ∈ [0, 50]`,
`takeDamage a` sets health to exactly `max 0 (health - max 1 (a - r))`, never
increases health, and never makes it negative — for all inputs including zero
and negative amounts (given the health invariant `0 ≤ currentHealth`). -/
theorem takeDamage_reduces_by_exactly_clamped (s : HealthSystem) (a : ℚ)
    (hr0 : 0 ≤ s.armor) (hr50 : s.armor ≤ 50) (hh : 0 ≤ s.currentHealth) :
    (s.takeDamage a).1.currentHealth
        = max 0 (s.currentHealth - max 1 (a - s.armor))
      ∧ (s.takeDamage a).1.currentHealth ≤ s.currentHealth
      ∧ 0 ≤ (s.takeDamage a).1.currentHealth := by
  have heq : (s.takeDamage a).1.currentHealth
      = max 0 (s.currentHealth - max 1 (a - s.armor)) := by
    unfold HealthSystem.takeDamage
    dsimp only
    split <;> rfl
  refine ⟨heq, ?_, ?_⟩
  · rw [heq]
    have h1 : (1:ℚ) ≤ max 1 (a - s.armor) := le_max_left _ _
    exact max_le hh (by linarith)
  · rw [heq]
    exact le_max_left _ _

/-- Witness for C1 at the spec's own scenario: health 100, armor 0,
damage 30. -/
theorem takeDamage_reduces_by_exactly_clamped_witness :
    ((HealthSystem.init 100).takeDamage 30).1.currentHealth
        = max 0 ((HealthSystem.init 100).currentHealth
            - max 1 (30 - (HealthSystem.init 100).armor))
      ∧ ((HealthSystem.init 100).takeDamage 30).1.currentHealth
          ≤ (HealthSystem.init 100).currentHealth
      ∧ 0 ≤ ((HealthSystem.init 100).takeDamage 30).1.currentHealth :=
  takeDamage_reduces_by_exactly_clamped (HealthSystem.init 100) 30
    (by norm_num [HealthSystem.init]) (by norm_num [HealthSystem.init])
    (by norm_num [HealthSystem.init])

/-- C7: the destruction signal fires exactly once — `takeDamage` returns true
precisely on a call that finds the model not yet destroyed and leaves health
at (or below) 0; such a call latches the destroyed flag; and once the flag is
latched every later call returns false while the damage arithmetic still
applies. -/
theorem takeDamage_signal_fires_once (s : HealthSystem) (a : ℚ) :
    ((s.takeDamage a).2 = true ↔
        s.isDestroyed = false ∧ (s.takeDamage a).1.currentHealth ≤ 0)
      ∧ ((s.takeDamage a).2 = true → (s.takeDamage a).1.isDestroyed = true)
      ∧ (s.isDestroyed = true →
          (s.takeDamage a).2 = false
            ∧ (s.takeDamage a).1.isDestroyed = true
            ∧ (s.takeDamage a).1.currentHealth
                = max 0 (s.currentHealth - max 1 (a - s.armor))) := by
  unfold HealthSystem.takeDamage
  dsimp only
  constructor
  · split
    · rename_i h
      exact ⟨fun _ => ⟨h.2, h.1⟩, fun _ => rfl⟩
    · rename_i h
      rw [not_and_or] at h
      rcases h with h | h
      · constructor
        · intro hfalse
          exact absurd hfalse (by simp)
        · intro ⟨_, hle⟩
          exact absurd hle h
      · constructor
        · intro hfalse
          exact absurd hfalse (by simp)
        · intro ⟨hd, _⟩
          exact absurd hd h
  constructor
  · split
    · intro _
      rfl
    · intro h
      exact absurd h (by simp)
  · intro hd
    split
    · rename_i h
      rw [hd] at h
      exact absurd h.2 (by simp)
    · exact ⟨rfl, hd, rfl⟩

/-- Witness for C7: destroy a 1-point model with damage 5 (health hits 0,
signal true), then hit it again with damage 7 — the signal stays false while
health arithmetic still applies. -/
theorem takeDamage_signal_fires_once_witness :
    ((((HealthSystem.init 1).takeDamage 5).1).takeDamage 7).2 = false :=
  ((takeDamage_signal_fires_once (((HealthSystem.init 1).takeDamage 5).1) 7).2.2
    (by norm_num [HealthSystem.init, HealthSystem.takeDamage])).1

/-- C8 counterexample: `heal` and `addArmor` clamp only from above
(`Math.min`), so a negative amount pushes the value below 0 — healing a full
100-point model by −150 leaves health −50, and adding −10 armor to a fresh
model leaves armor −10, both outside the claimed ranges. -/
theorem heal_addArmor_negative_input_cex :
    ((HealthSystem.init 100).heal (-150)).currentHealth < 0
      ∧ ((HealthSystem.init 100).addArmor (-10)).armor < 0 := by
  constructor <;>
    norm_num [HealthSystem.init, HealthSystem.heal, HealthSystem.addArmor]

/-- C8 amended: `heal` never pushes health above `maxHealth` and `addArmor`
never pushes armor above 50, for every input; the lower bounds 0 hold for
non-negative amounts from in-range states, but negative amounts are clamped
only from above and can drive the values negative. -/
theorem heal_addArmor_clamp_above_only (s : HealthSystem) (amount : ℚ) :
    (s.heal amount).currentHealth ≤ s.maxHealth
      ∧ (s.addArmor amount).armor ≤ 50
      ∧ (0 ≤ amount → 0 ≤ s.currentHealth → 0 ≤ s.maxHealth →
          0 ≤ (s.heal amount).currentHealth)
      ∧ (0 ≤ amount → 0 ≤ s.armor → 0 ≤ (s.addArmor amount).armor) := by
  refine ⟨min_le_left _ _, min_le_left _ _, ?_, ?_⟩
  · intro ha hh hm
    exact le_min hm (by linarith)
  · intro ha hr
    exact le_min (by norm_num) (by linarith)

/-- Witness for the amended C8 at health 100, amount 5. -/
theorem heal_addArmor_clamp_above_only_witness :
    0 ≤ ((HealthSystem.init 100).heal 5).currentHealth
      ∧ 0 ≤ ((HealthSystem.init 100).addArmor 5).armor :=
  ⟨(heal_addArmor_clamp_above_only (HealthSystem.init 100) 5).2.2.1
      (by norm_num) (by norm_num [HealthSystem.init])
      (by norm_num [HealthSystem.init]),
    (heal_addArmor_clamp_above_only (HealthSystem.init 100) 5).2.2.2
      (by norm_num) (by norm_num [HealthSystem.init])⟩

/-- C10: the destroyed flag is latched — `takeDamage`, `heal` and `addArmor`
never clear it — while `isAlive` reads only `currentHealth > 0`; so healing a
destroyed model (health 0) by a positive amount makes `isAlive` true again
while `isDestroyed` stays true, and the destruction signal can never fire
again (any later `takeDamage` returns false). -/
theorem destroyed_latched_isAlive_decoupled (s : HealthSystem) (a b : ℚ)
    (hd : s.isDestroyed = true) (hh : s.currentHealth = 0)
    (ha : 0 < a) (hm : 0 < s.maxHealth) :
    ((s.takeDamage b).1.isDestroyed = true
        ∧ (s.heal a).isDestroyed = true
        ∧ (s.addArmor a).isDestroyed = true)
      ∧ (s.heal a).isAlive = true
      ∧ (s.heal a).isDestroyed = true
      ∧ ((s.heal a).takeDamage b).2 = false := by
  have hheal : (s.heal a).isDestroyed = true := hd
  have htd : (s.takeDamage b).1.isDestroyed = true := by
    unfold HealthSystem.takeDamage
    dsimp only
    split
    · rfl
    · exact hd
  refine ⟨⟨htd, hheal, hd⟩, ?_, hheal, ?_⟩
  · unfold HealthSystem.isAlive HealthSystem.heal
    dsimp only
    rw [hh]
    exact decide_eq_true (lt_min hm (by linarith))
  · unfold HealthSystem.takeDamage
    dsimp only
    split
    · rename_i h
      rw [hheal] at h
      exact absurd h.2 (by simp)
    · rfl

/-- Witness for C10: destroy a 100-point model with damage 200, heal it by 30
— it reports alive, stays destroyed, and a later hit returns no signal. -/
theorem destroyed_latched_isAlive_decoupled_witness :
    ((((HealthSystem.init 100).takeDamage 200).1.heal 30).isAlive = true)
      ∧ ((((HealthSystem.init 100).takeDamage 200).1.heal 30).isDestroyed = true)
      ∧ (((((HealthSystem.init 100).takeDamage 200).1.heal 30).takeDamage 10).2
          = false) :=
  let r := destroyed_latched_isAlive_decoupled
    ((HealthSystem.init 100).takeDamage 200).1 30 10
    (by norm_num [HealthSystem.init, HealthSystem.takeDamage])
    (by norm_num [HealthSystem.init, HealthSystem.takeDamage])
    (by norm_num) (by norm_num [HealthSystem.init, HealthSystem.takeDamage])
  ⟨r.2.1, r.2.2.1, r.2.2.2⟩

/-! ## Claims about the Projectile -/

/-- C5 counterexample: the travel-cap check is strict (`distanceTraveled >
200`), so a NORMAL bullet (speed 50, unit direction) is still active after
exactly 4 simulated seconds of unobstructed flight — its distance is then
exactly 200, which does not exceed the cap; the claim's "inactive after
exactly 4 seconds (distance 200)" fails.  One further update deactivates
it. -/
theorem bullet_still_active_at_exactly_four_seconds :
    (((((Bullet.create ⟨0,0,0⟩ ⟨0,0,1⟩ ⟨0,0,0⟩ .NORMAL 10).update 1).1.update
        1).1.update 1).1.update 1).2 = true
      ∧ (((((Bullet.create ⟨0,0,0⟩ ⟨0,0,1⟩ ⟨0,0,0⟩ .NORMAL 10).update
          1).1.update 1).1.update 1).1.update 1).1.isActive = true
      ∧ (((((Bullet.create ⟨0,0,0⟩ ⟨0,0,1⟩ ⟨0,0,0⟩ .NORMAL 10).update
          1).1.update 1).1.update 1).1.update 1).1.distanceTraveledSq = 200 ^ 2
      ∧ ((((((Bullet.create ⟨0,0,0⟩ ⟨0,0,1⟩ ⟨0,0,0⟩ .NORMAL 10).update
          1).1.update 1).1.update 1).1.update 1).1.update 1).2 = false := by
  norm_num [Bullet.create, Bullet.reset, Bullet.update, Vec3.add, Vec3.smul,
    Vec3.distSq, Vec3.sub, Vec3.normSq, Vec3.zero, bulletSpeed]

/-- C5 amended: `update dt` returns false exactly when the bullet is already
inactive, its accumulated lifetime strictly exceeds `maxLifeTime`, or its
distance from the start strictly exceeds the 200-unit cap (so the speed-50
bullet deactivates only strictly after 4 seconds, not at exactly 4); the
result mirrors the active flag, and an inactive bullet is left unchanged by
every later update until an explicit `reset`. -/
theorem bullet_update_deactivates_exactly_on_caps (b : Bullet) (δ : ℚ) :
    ((b.update δ).2 = true ↔ (b.update δ).1.isActive = true)
      ∧ (b.isActive = false → b.update δ = (b, false))
      ∧ (b.isActive = true →
          ((b.update δ).2 = false ↔
            b.lifeTime + δ > b.maxLifeTime
              ∨ Vec3.distSq (b.position.add (Vec3.smul δ b.velocity))
                  b.startPosition > 200 ^ 2)) := by
  by_cases hA : b.isActive = false
  · refine ⟨?_, fun _ => ?_, fun hT => absurd hT (by simp [hA])⟩
    · simp [Bullet.update, hA]
    · simp [Bullet.update, hA]
  · have hA' : b.isActive = true := by
      revert hA
      cases b.isActive <;> simp
    by_cases hL : b.lifeTime + δ > b.maxLifeTime
    · refine ⟨?_, fun hf => absurd hf (by simp [hA']), fun _ => ?_⟩
      · simp [Bullet.update, hA', hL]
      · simp [Bullet.update, hA', hL]
    · by_cases hD : Vec3.distSq (b.position.add (Vec3.smul δ b.velocity))
          b.startPosition > 200 ^ 2
      · refine ⟨?_, fun hf => absurd hf (by simp [hA']), fun _ => ?_⟩
        · simp [Bullet.update, hA', hL, hD]
        · simp [Bullet.update, hA', hL, hD]
      · refine ⟨?_, fun hf => absurd hf (by simp [hA']), fun _ => ?_⟩
        · simp [Bullet.update, hA', hL, hD]
        · simp [Bullet.update, hA', hL, hD]

/-- Witness for the amended C5: a deactivated bullet is returned unchanged
with result false. -/
theorem bullet_update_deactivates_exactly_on_caps_witness :
    let b := { Bullet.create ⟨0,0,0⟩ ⟨0,0,1⟩ ⟨0,0,0⟩ .NORMAL 10 with
      isActive := false }
    b.update 1 = (b, false) :=
  (bullet_update_deactivates_exactly_on_caps
    { Bullet.create ⟨0,0,0⟩ ⟨0,0,1⟩ ⟨0,0,0⟩ .NORMAL 10 with
      isActive := false } 1).2.1 rfl

/-! ## Claims about the Projectile Pool / Weapon System -/

/-- C6: evaluating the pool at the failing input.  Recycling an inactive
bullet into the empty pool pushes one entry — but `recycleBullet` resets the
bullet, and `Bullet.reset` sets `isActive` back to true, while
`getBulletFromPool` hands out only entries with `isActive` false.  So the
recycled bullet is never found (`findInactive` = none) and the next `fire`
takes the fresh-allocation branch, leaving the pool untouched, contradicting
the claimed (and commented, `// Reset the bullet to reuse later`) pool reuse.
At capacity (pool length 50) recycling leaves the pool at length 50, so the
capacity half of the claim does hold. -/
theorem recycleBullet_pool_entry_never_reused :
    (((WeaponSystem.init.recycleBullet
        { Bullet.create ⟨0,0,0⟩ ⟨0,0,1⟩ ⟨0,0,0⟩ .NORMAL 10 with
          isActive := false }).1.bulletPool.map Bullet.isActive) = [true])
      ∧ WeaponSystem.findInactive
          (WeaponSystem.init.recycleBullet
            { Bullet.create ⟨0,0,0⟩ ⟨0,0,1⟩ ⟨0,0,0⟩ .NORMAL 10 with
              isActive := false }).1.bulletPool = none
      ∧ ((WeaponSystem.init.recycleBullet
            { Bullet.create ⟨0,0,0⟩ ⟨0,0,1⟩ ⟨0,0,0⟩ .NORMAL 10 with
              isActive := false }).1.fire 10 ⟨0,0,0⟩ ⟨0,0,1⟩ ⟨0,0,0⟩).2
          = some (Bullet.create ⟨0,0,0⟩ ⟨0,0,1⟩ ⟨0,0,0⟩ .NORMAL 10)
      ∧ ((WeaponSystem.init.recycleBullet
            { Bullet.create ⟨0,0,0⟩ ⟨0,0,1⟩ ⟨0,0,0⟩ .NORMAL 10 with
              isActive := false }).1.fire 10 ⟨0,0,0⟩ ⟨0,0,1⟩ ⟨0,0,0⟩).1.bulletPool.length
          = 1
      ∧ ({ WeaponSystem.init with
            bulletPool := List.replicate 50
              (Bullet.create ⟨0,0,0⟩ ⟨0,0,1⟩ ⟨0,0,0⟩ .NORMAL 10) }.recycleBullet
            { Bullet.create ⟨0,0,0⟩ ⟨0,0,1⟩ ⟨0,0,0⟩ .NORMAL 10 with
              isActive := false }).1.bulletPool.length = 50 := by
  refine ⟨?_, ?_, ?_, ?_, ?_⟩
  · norm_num [WeaponSystem.init, WeaponSystem.recycleBullet, Bullet.reset,
      Bullet.create]
  · norm_num [WeaponSystem.init, WeaponSystem.recycleBullet,
      WeaponSystem.findInactive, Bullet.reset, Bullet.create]
  · norm_num [WeaponSystem.init, WeaponSystem.recycleBullet,
      WeaponSystem.fire, WeaponSystem.canFire, WeaponSystem.findInactive,
      Bullet.reset, Bullet.create, bulletSpeed]
  · norm_num [WeaponSystem.init, WeaponSystem.recycleBullet,
      WeaponSystem.fire, WeaponSystem.canFire, WeaponSystem.findInactive,
      Bullet.reset, Bullet.create, bulletSpeed]
  · norm_num [WeaponSystem.init, WeaponSystem.recycleBullet]


/-- Number of successful fires along a trace. -/
def WeaponSystem.successCount (s : WeaponSystem) : List WeaponOp → ℕ
  | [] => 0
  | op :: ops =>
      (if (s.step op).2.isSome then 1 else 0)
        + WeaponSystem.successCount (s.step op).1 ops

/-- A blocked `fire` (any reason) leaves the weapon state untouched and emits
nothing. -/
theorem fire_step_blocked (s : WeaponSystem) (t : ℚ) (p d tp : Vec3)
    (hb : s.canFire t = false) : s.step (.fire t p d tp) = (s, none) := by
  show s.fire t p d tp = (s, none)
  unfold WeaponSystem.fire
  rw [if_pos hb]

/-- `fire` emits a bullet exactly when `canFire` holds. -/
theorem fire_step_isSome_iff (s : WeaponSystem) (t : ℚ) (p d tp : Vec3) :
    ((s.step (.fire t p d tp)).2.isSome = true) ↔ s.canFire t = true := by
  cases hc : s.canFire t
  · rw [fire_step_blocked s t p d tp hc]
    simp
  · simp only [hc, iff_true]
    show (s.fire t p d tp).2.isSome = true
    unfold WeaponSystem.fire
    rw [if_neg (by simp [hc])]
    dsimp only
    split <;> rfl

/-- A successful `fire` records its own timestamp. -/
theorem fire_step_success_lastFireTime (s : WeaponSystem) (t : ℚ)
    (p d tp : Vec3) (hc : s.canFire t = true) :
    (s.step (.fire t p d tp)).1.lastFireTime = t := by
  show (s.fire t p d tp).1.lastFireTime = t
  unfold WeaponSystem.fire
  rw [if_neg (by simp [hc])]
  dsimp only
  split <;> split <;> rfl

/-- Operations other than `fire` neither emit a bullet nor move the recorded
fire timestamp. -/
theorem step_nonfire (s : WeaponSystem) (op : WeaponOp)
    (h : ∀ t p d tp, op ≠ .fire t p d tp) :
    (s.step op).2 = none ∧ (s.step op).1.lastFireTime = s.lastFireTime := by
  cases op with
  | fire t p d tp => exact absurd rfl (h t p d tp)
  | setBulletType ty => exact ⟨rfl, rfl⟩
  | cool t δ =>
      refine ⟨rfl, ?_⟩
      show (s.update t δ).lastFireTime = s.lastFireTime
      unfold WeaponSystem.update
      split <;> rfl
  | timer t =>
      refine ⟨rfl, ?_⟩
      show (s.overheatTimerFire t).lastFireTime = s.lastFireTime
      unfold WeaponSystem.overheatTimerFire
      split
      · split <;> rfl
      · rfl

/-- Along any trace, the weapon's `lastFireTime` equals the timestamp of the
last successful fire (`acc` initially). -/
theorem run_lastFireTime (ops : List WeaponOp) :
    ∀ (s : WeaponSystem) (acc : ℚ), s.lastFireTime = acc →
      (s.run ops).lastFireTime = WeaponSystem.lastSuccessTimeAux s acc ops := by
  induction ops with
  | nil =>
      intro s acc h
      simpa [WeaponSystem.run, WeaponSystem.lastSuccessTimeAux] using h
  | cons op ops ih =>
      intro s acc h
      rw [WeaponSystem.run, WeaponSystem.lastSuccessTimeAux.eq_def]
      dsimp only
      apply ih
      cases op with
      | fire t p d tp =>
          cases hc : s.canFire t
          · rw [fire_step_blocked s t p d tp hc]
            simpa using h
          · have hsome := (fire_step_isSome_iff s t p d tp).mpr hc
            rw [fire_step_success_lastFireTime s t p d tp hc]
            simp [hsome]
      | setBulletType ty =>
          have hn := step_nonfire s (.setBulletType ty)
            (by intro _ _ _ _ h'; cases h')
          rw [hn.2]
          exact h
      | cool t δ =>
          have hn := step_nonfire s (.cool t δ) (by intro _ _ _ _ h'; cases h')
          rw [hn.2]
          exact h
      | timer t =>
          have hn := step_nonfire s (.timer t) (by intro _ _ _ _ h'; cases h')
          rw [hn.2]
          exact h

/-- C3: along every trace of weapon operations, a `fire` that emits a bullet
finds the weapon not overheated and at least the current cooldown past the
previous successful fire's timestamp; a blocked `fire` emits nothing and
leaves the whole weapon state (in particular the fire timestamp and the heat)
unchanged. -/
theorem fire_respects_cooldown_and_overheat (pre : List WeaponOp) (t : ℚ)
    (p d tp : Vec3) :
    ((((WeaponSystem.init.run pre).step (.fire t p d tp)).2.isSome = true) →
        (WeaponSystem.init.run pre).overheated = false
          ∧ (WeaponSystem.init.run pre).cooldown ≤ t - lastSuccessTime pre)
      ∧ ((((WeaponSystem.init.run pre).step (.fire t p d tp)).2 = none) →
          ((WeaponSystem.init.run pre).step (.fire t p d tp)).1
            = WeaponSystem.init.run pre) := by
  have hlast : (WeaponSystem.init.run pre).lastFireTime = lastSuccessTime pre :=
    run_lastFireTime pre WeaponSystem.init 0 rfl
  constructor
  · intro hsome
    have hc : (WeaponSystem.init.run pre).canFire t = true :=
      (fire_step_isSome_iff _ t p d tp).mp hsome
    unfold WeaponSystem.canFire at hc
    rcases ho : (WeaponSystem.init.run pre).overheated
    · rw [ho, if_neg (by simp)] at hc
      refine ⟨rfl, ?_⟩
      rw [← hlast]
      have := of_decide_eq_true hc
      linarith
    · rw [ho, if_pos rfl] at hc
      cases hc
  · intro hnone
    cases hc : (WeaponSystem.init.run pre).canFire t
    · rw [fire_step_blocked _ t p d tp hc]
    · have hsome := (fire_step_isSome_iff _ t p d tp).mpr hc
      rw [hnone] at hsome
      cases hsome

/-- Witness for C3: after one successful fire at t = 1, a second fire at
t = 2 succeeds, so the theorem reports no overheat and a full cooldown since
the recorded previous fire. -/
theorem fire_respects_cooldown_and_overheat_witness :
    (WeaponSystem.init.run
        [WeaponOp.fire 1 Vec3.zero ⟨0,0,1⟩ Vec3.zero]).overheated = false
      ∧ (WeaponSystem.init.run
          [WeaponOp.fire 1 Vec3.zero ⟨0,0,1⟩ Vec3.zero]).cooldown
        ≤ 2 - lastSuccessTime [WeaponOp.fire 1 Vec3.zero ⟨0,0,1⟩ Vec3.zero] :=
  (fire_respects_cooldown_and_overheat
      [WeaponOp.fire 1 Vec3.zero ⟨0,0,1⟩ Vec3.zero] 2 Vec3.zero ⟨0,0,1⟩
      Vec3.zero).1
    (by norm_num [WeaponSystem.run, WeaponSystem.step, WeaponSystem.fire,
      WeaponSystem.canFire, WeaponSystem.findInactive, WeaponSystem.init])

/-- A successful fire below the heat threshold (empty pool): exact successor
state — timestamp recorded, heat up by 0.2, fresh bullet allocated. -/
theorem fire_step_empty_pool_cold (s : WeaponSystem) (t : ℚ) (p d tp : Vec3)
    (ho : s.overheated = false) (hcd : s.cooldown ≤ t - s.lastFireTime)
    (hp : s.bulletPool = []) (hh : s.heatingLevel + 1/5 < 1) :
    s.step (.fire t p d tp)
      = ({ s with lastFireTime := t, heatingLevel := s.heatingLevel + 1/5 },
          some (Bullet.create p d tp s.bulletType s.damage)) := by
  have hc : s.canFire t = true := by
    unfold WeaponSystem.canFire
    rw [ho, if_neg (by simp)]
    exact decide_eq_true hcd
  show s.fire t p d tp = _
  unfold WeaponSystem.fire
  rw [if_neg (by simp [hc])]
  dsimp only
  rw [if_neg (not_le.mpr hh)]
  dsimp only
  rw [hp]
  rfl

/-- A successful fire that crosses the heat threshold (empty pool): exact
successor state — overheat latched and the 3-second clear scheduled. -/
theorem fire_step_empty_pool_hot (s : WeaponSystem) (t : ℚ) (p d tp : Vec3)
    (ho : s.overheated = false) (hcd : s.cooldown ≤ t - s.lastFireTime)
    (hp : s.bulletPool = []) (hh : 1 ≤ s.heatingLevel + 1/5) :
    s.step (.fire t p d tp)
      = ({ s with
            lastFireTime := t
            heatingLevel := s.heatingLevel + 1/5
            overheated := true
            overheatClearAt := some (t + 3) },
          some (Bullet.create p d tp s.bulletType s.damage)) := by
  have hc : s.canFire t = true := by
    unfold WeaponSystem.canFire
    rw [ho, if_neg (by simp)]
    exact decide_eq_true hcd
  show s.fire t p d tp = _
  unfold WeaponSystem.fire
  rw [if_neg (by simp [hc])]
  dsimp only
  rw [if_pos hh]
  dsimp only
  rw [hp]
  rfl

/-- Weapon state after a run of successful fires that has not overheated:
initial state with the recorded timestamp and accumulated heat. -/
def wsCold (t heat : ℚ) : WeaponSystem :=
  { WeaponSystem.init with lastFireTime := t, heatingLevel := heat }

/-- Weapon state right after the fire that crosses the heat threshold. -/
def wsHot (t heat : ℚ) : WeaponSystem :=
  { WeaponSystem.init with
    lastFireTime := t
    heatingLevel := heat
    overheated := true
    overheatClearAt := some (t + 3) }

/-- C4: from a fresh weapon (heat 0, NORMAL bullets, heat increment 0.2), five
successful fires with no cooling interval leave the heat at exactly 1 and the
weapon OVERHEATED; every further fire attempt returns no bullet and changes
nothing, until the 3-second overheat timer runs, which clears the flag and
resets the heat to 0. -/
theorem weapon_overheats_after_five_fires (t1 t2 t3 t4 t5 : ℚ)
    (h1 : 1/2 ≤ t1) (h2 : 1/2 ≤ t2 - t1) (h3 : 1/2 ≤ t3 - t2)
    (h4 : 1/2 ≤ t4 - t3) (h5 : 1/2 ≤ t5 - t4) :
    WeaponSystem.successCount WeaponSystem.init
        [WeaponOp.fire t1 Vec3.zero ⟨0,0,1⟩ Vec3.zero,
          WeaponOp.fire t2 Vec3.zero ⟨0,0,1⟩ Vec3.zero,
          WeaponOp.fire t3 Vec3.zero ⟨0,0,1⟩ Vec3.zero,
          WeaponOp.fire t4 Vec3.zero ⟨0,0,1⟩ Vec3.zero,
          WeaponOp.fire t5 Vec3.zero ⟨0,0,1⟩ Vec3.zero] = 5
      ∧ (WeaponSystem.init.run
          [WeaponOp.fire t1 Vec3.zero ⟨0,0,1⟩ Vec3.zero,
            WeaponOp.fire t2 Vec3.zero ⟨0,0,1⟩ Vec3.zero,
            WeaponOp.fire t3 Vec3.zero ⟨0,0,1⟩ Vec3.zero,
            WeaponOp.fire t4 Vec3.zero ⟨0,0,1⟩ Vec3.zero,
            WeaponOp.fire t5 Vec3.zero ⟨0,0,1⟩ Vec3.zero]).heatingLevel = 1
      ∧ (WeaponSystem.init.run
          [WeaponOp.fire t1 Vec3.zero ⟨0,0,1⟩ Vec3.zero,
            WeaponOp.fire t2 Vec3.zero ⟨0,0,1⟩ Vec3.zero,
            WeaponOp.fire t3 Vec3.zero ⟨0,0,1⟩ Vec3.zero,
            WeaponOp.fire t4 Vec3.zero ⟨0,0,1⟩ Vec3.zero,
            WeaponOp.fire t5 Vec3.zero ⟨0,0,1⟩ Vec3.zero]).overheated = true
      ∧ (∀ (t6 : ℚ) (p d tp : Vec3),
          (WeaponSystem.init.run
              [WeaponOp.fire t1 Vec3.zero ⟨0,0,1⟩ Vec3.zero,
                WeaponOp.fire t2 Vec3.zero ⟨0,0,1⟩ Vec3.zero,
                WeaponOp.fire t3 Vec3.zero ⟨0,0,1⟩ Vec3.zero,
                WeaponOp.fire t4 Vec3.zero ⟨0,0,1⟩ Vec3.zero,
                WeaponOp.fire t5 Vec3.zero ⟨0,0,1⟩ Vec3.zero]).step
              (WeaponOp.fire t6 p d tp)
            = (WeaponSystem.init.run
                [WeaponOp.fire t1 Vec3.zero ⟨0,0,1⟩ Vec3.zero,
                  WeaponOp.fire t2 Vec3.zero ⟨0,0,1⟩ Vec3.zero,
                  WeaponOp.fire t3 Vec3.zero ⟨0,0,1⟩ Vec3.zero,
                  WeaponOp.fire t4 Vec3.zero ⟨0,0,1⟩ Vec3.zero,
                  WeaponOp.fire t5 Vec3.zero ⟨0,0,1⟩ Vec3.zero], none))
      ∧ (∀ tc : ℚ, t5 + 3 ≤ tc →
          ((WeaponSystem.init.run
              [WeaponOp.fire t1 Vec3.zero ⟨0,0,1⟩ Vec3.zero,
                WeaponOp.fire t2 Vec3.zero ⟨0,0,1⟩ Vec3.zero,
                WeaponOp.fire t3 Vec3.zero ⟨0,0,1⟩ Vec3.zero,
                WeaponOp.fire t4 Vec3.zero ⟨0,0,1⟩ Vec3.zero,
                WeaponOp.fire t5 Vec3.zero ⟨0,0,1⟩ Vec3.zero]).overheatTimerFire
              tc).overheated = false
            ∧ ((WeaponSystem.init.run
                [WeaponOp.fire t1 Vec3.zero ⟨0,0,1⟩ Vec3.zero,
                  WeaponOp.fire t2 Vec3.zero ⟨0,0,1⟩ Vec3.zero,
                  WeaponOp.fire t3 Vec3.zero ⟨0,0,1⟩ Vec3.zero,
                  WeaponOp.fire t4 Vec3.zero ⟨0,0,1⟩ Vec3.zero,
                  WeaponOp.fire t5 Vec3.zero ⟨0,0,1⟩ Vec3.zero]).overheatTimerFire
                tc).heatingLevel = 0) := by
  have e1 : WeaponSystem.init.step (WeaponOp.fire t1 Vec3.zero ⟨0,0,1⟩ Vec3.zero)
      = (wsCold t1 (1/5), some (Bullet.create Vec3.zero ⟨0,0,1⟩ Vec3.zero
          .NORMAL 10)) := by
    rw [fire_step_empty_pool_cold WeaponSystem.init t1 Vec3.zero ⟨0,0,1⟩
      Vec3.zero rfl (by simpa [WeaponSystem.init] using h1) rfl
      (by norm_num [WeaponSystem.init])]
    norm_num [wsCold, WeaponSystem.init]
  have e2 : (wsCold t1 (1/5)).step (WeaponOp.fire t2 Vec3.zero ⟨0,0,1⟩ Vec3.zero)
      = (wsCold t2 (2/5), some (Bullet.create Vec3.zero ⟨0,0,1⟩ Vec3.zero
          .NORMAL 10)) := by
    rw [fire_step_empty_pool_cold (wsCold t1 (1/5)) t2 Vec3.zero ⟨0,0,1⟩
      Vec3.zero rfl (by simpa [wsCold, WeaponSystem.init] using h2) rfl
      (by norm_num [wsCold, WeaponSystem.init])]
    norm_num [wsCold, WeaponSystem.init]
  have e3 : (wsCold t2 (2/5)).step (WeaponOp.fire t3 Vec3.zero ⟨0,0,1⟩ Vec3.zero)
      = (wsCold t3 (3/5), some (Bullet.create Vec3.zero ⟨0,0,1⟩ Vec3.zero
          .NORMAL 10)) := by
    rw [fire_step_empty_pool_cold (wsCold t2 (2/5)) t3 Vec3.zero ⟨0,0,1⟩
      Vec3.zero rfl (by simpa [wsCold, WeaponSystem.init] using h3) rfl
      (by norm_num [wsCold, WeaponSystem.init])]
    norm_num [wsCold, WeaponSystem.init]
  have e4 : (wsCold t3 (3/5)).step (WeaponOp.fire t4 Vec3.zero ⟨0,0,1⟩ Vec3.zero)
      = (wsCold t4 (4/5), some (Bullet.create Vec3.zero ⟨0,0,1⟩ Vec3.zero
          .NORMAL 10)) := by
    rw [fire_step_empty_pool_cold (wsCold t3 (3/5)) t4 Vec3.zero ⟨0,0,1⟩
      Vec3.zero rfl (by simpa [wsCold, WeaponSystem.init] using h4) rfl
      (by norm_num [wsCold, WeaponSystem.init])]
    norm_num [wsCold, WeaponSystem.init]
  have e5 : (wsCold t4 (4/5)).step (WeaponOp.fire t5 Vec3.zero ⟨0,0,1⟩ Vec3.zero)
      = (wsHot t5 1, some (Bullet.create Vec3.zero ⟨0,0,1⟩ Vec3.zero
          .NORMAL 10)) := by
    rw [fire_step_empty_pool_hot (wsCold t4 (4/5)) t5 Vec3.zero ⟨0,0,1⟩
      Vec3.zero rfl (by simpa [wsCold, WeaponSystem.init] using h5) rfl
      (by norm_num [wsCold, WeaponSystem.init])]
    norm_num [wsCold, wsHot, WeaponSystem.init]
  have hrun : WeaponSystem.init.run
      [WeaponOp.fire t1 Vec3.zero ⟨0,0,1⟩ Vec3.zero,
        WeaponOp.fire t2 Vec3.zero ⟨0,0,1⟩ Vec3.zero,
        WeaponOp.fire t3 Vec3.zero ⟨0,0,1⟩ Vec3.zero,
        WeaponOp.fire t4 Vec3.zero ⟨0,0,1⟩ Vec3.zero,
        WeaponOp.fire t5 Vec3.zero ⟨0,0,1⟩ Vec3.zero] = wsHot t5 1 := by
    simp only [WeaponSystem.run, e1, e2, e3, e4, e5]
  have hcount : WeaponSystem.successCount WeaponSystem.init
      [WeaponOp.fire t1 Vec3.zero ⟨0,0,1⟩ Vec3.zero,
        WeaponOp.fire t2 Vec3.zero ⟨0,0,1⟩ Vec3.zero,
        WeaponOp.fire t3 Vec3.zero ⟨0,0,1⟩ Vec3.zero,
        WeaponOp.fire t4 Vec3.zero ⟨0,0,1⟩ Vec3.zero,
        WeaponOp.fire t5 Vec3.zero ⟨0,0,1⟩ Vec3.zero] = 5 := by
    simp only [WeaponSystem.successCount, e1, e2, e3, e4, e5]
    norm_num
  refine ⟨hcount, ?_, ?_, ?_, ?_⟩
  · rw [hrun]
    rfl
  · rw [hrun]
    rfl
  · intro t6 p d tp
    rw [hrun]
    exact fire_step_blocked (wsHot t5 1) t6 p d tp rfl
  · intro tc hc
    rw [hrun]
    unfold WeaponSystem.overheatTimerFire
    constructor
    · simp only [wsHot]
      rw [if_pos hc]
    · simp only [wsHot]
      rw [if_pos hc]

/-- Witness for C4: fires at 0.5, 1, 1.5, 2, 2.5 seconds — all five succeed,
the weapon overheats at heat 1, a 6th attempt at 2.6 s is a no-op, and the
timer firing at 5.5 s clears the overheat and resets the heat. -/
theorem weapon_overheats_after_five_fires_witness :
    WeaponSystem.successCount WeaponSystem.init
        [WeaponOp.fire (1/2) Vec3.zero ⟨0,0,1⟩ Vec3.zero,
          WeaponOp.fire 1 Vec3.zero ⟨0,0,1⟩ Vec3.zero,
          WeaponOp.fire (3/2) Vec3.zero ⟨0,0,1⟩ Vec3.zero,
          WeaponOp.fire 2 Vec3.zero ⟨0,0,1⟩ Vec3.zero,
          WeaponOp.fire (5/2) Vec3.zero ⟨0,0,1⟩ Vec3.zero] = 5
      ∧ (WeaponSystem.init.run
          [WeaponOp.fire (1/2) Vec3.zero ⟨0,0,1⟩ Vec3.zero,
            WeaponOp.fire 1 Vec3.zero ⟨0,0,1⟩ Vec3.zero,
            WeaponOp.fire (3/2) Vec3.zero ⟨0,0,1⟩ Vec3.zero,
            WeaponOp.fire 2 Vec3.zero ⟨0,0,1⟩ Vec3.zero,
            WeaponOp.fire (5/2) Vec3.zero ⟨0,0,1⟩ Vec3.zero]).overheated = true
      ∧ (WeaponSystem.init.run
          [WeaponOp.fire (1/2) Vec3.zero ⟨0,0,1⟩ Vec3.zero,
            WeaponOp.fire 1 Vec3.zero ⟨0,0,1⟩ Vec3.zero,
            WeaponOp.fire (3/2) Vec3.zero ⟨0,0,1⟩ Vec3.zero,
            WeaponOp.fire 2 Vec3.zero ⟨0,0,1⟩ Vec3.zero,
            WeaponOp.fire (5/2) Vec3.zero ⟨0,0,1⟩ Vec3.zero]).step
          (WeaponOp.fire (13/5) Vec3.zero ⟨0,0,1⟩ Vec3.zero)
        = (WeaponSystem.init.run
            [WeaponOp.fire (1/2) Vec3.zero ⟨0,0,1⟩ Vec3.zero,
              WeaponOp.fire 1 Vec3.zero ⟨0,0,1⟩ Vec3.zero,
              WeaponOp.fire (3/2) Vec3.zero ⟨0,0,1⟩ Vec3.zero,
              WeaponOp.fire 2 Vec3.zero ⟨0,0,1⟩ Vec3.zero,
              WeaponOp.fire (5/2) Vec3.zero ⟨0,0,1⟩ Vec3.zero], none)
      ∧ ((WeaponSystem.init.run
          [WeaponOp.fire (1/2) Vec3.zero ⟨0,0,1⟩ Vec3.zero,
            WeaponOp.fire 1 Vec3.zero ⟨0,0,1⟩ Vec3.zero,
            WeaponOp.fire (3/2) Vec3.zero ⟨0,0,1⟩ Vec3.zero,
            WeaponOp.fire 2 Vec3.zero ⟨0,0,1⟩ Vec3.zero,
            WeaponOp.fire (5/2) Vec3.zero ⟨0,0,1⟩
              Vec3.zero]).overheatTimerFire 6).heatingLevel = 0 :=
  have r := weapon_overheats_after_five_fires (1/2) 1 (3/2) 2 (5/2)
    (by norm_num) (by norm_num) (by norm_num) (by norm_num) (by norm_num)
  ⟨r.1, r.2.2.1, r.2.2.2.1 (13/5) Vec3.zero ⟨0,0,1⟩ Vec3.zero,
    (r.2.2.2.2 6 (by norm_num)).2⟩

/-! ## Claims about the Collision & Combat Resolver -/

/-- Car-sized test enemy (body bounds 2 × 1 × 4) at a given position. -/
def cexEnemy (p : Vec3) : Enemy :=
  { position := p
    boxOfsMin := ⟨-1, -1/2, -2⟩
    boxOfsMax := ⟨1, 1/2, 2⟩
    received := [] }

/-- Explosive test projectile (damage 30) at the origin. -/
def cexBullet : Bullet :=
  Bullet.create ⟨0,0,0⟩ ⟨0,0,1⟩ ⟨0,0,0⟩ .EXPLOSIVE 30

/-- C2 counterexample: an EXPLOSIVE projectile (damage 30) striking an enemy
at its own position, with two more enemies 3 units away (inside the 5-unit
effect radius): `createAreaEffect` filters *all* enemies within the radius —
it does not exclude the directly struck one — so the struck enemy receives the
half splash damage *and* the full damage (received list `[15, 30]`), receiving
the projectile's damage twice in the very pass that marks and recycles the
projectile exactly once (pool grows by exactly one). -/
theorem explosive_hit_damages_struck_vehicle_twice :
    (Game.checkBulletCollisions
        [cexEnemy ⟨0,0,0⟩, cexEnemy ⟨3,0,0⟩, cexEnemy ⟨-3,0,0⟩]
        WeaponSystem.init [cexBullet]).1.map Enemy.received
      = [[15, 30], [15], [15]]
    ∧ (Game.checkBulletCollisions
        [cexEnemy ⟨0,0,0⟩, cexEnemy ⟨3,0,0⟩, cexEnemy ⟨-3,0,0⟩]
        WeaponSystem.init [cexBullet]).2.1.bulletPool.length = 1 := by
  constructor <;>
    norm_num [Game.checkBulletCollisions, Game.processCarBullet,
      Game.firstHitIdx, Game.createAreaEffect, listModify, Game.bulletHitsEnemy,
      Game.sphereQuickTest, Game.checkBulletCollision, Game.enemyBounds,
      sqrtLeSqrtAddHalf, boxIntersects, Bullet.boxMin, Bullet.boxMax,
      Enemy.boxMin, Enemy.boxMax, Enemy.takeDamage, bulletHalfExtents,
      Vec3.distSq, Vec3.sub, Vec3.add, Vec3.smul, Vec3.normSq, Vec3.zero,
      cexBullet, cexEnemy, Bullet.create, Bullet.reset, bulletSpeed,
      WeaponSystem.init, WeaponSystem.recycleBullet]

/-- A found first-hit index is inside the enemy list. -/
theorem firstHitIdx_lt_length (b : Bullet) :
    ∀ (es : List Enemy) (i : ℕ), Game.firstHitIdx b es = some i →
      i < es.length := by
  intro es
  induction es with
  | nil => intro i h; cases h
  | cons e es ih =>
      intro i h
      unfold Game.firstHitIdx at h
      by_cases he : Game.bulletHitsEnemy b e = true
      · rw [if_pos he] at h
        cases h
        simp
      · rw [if_neg he] at h
        rcases hfi : Game.firstHitIdx b es with _ | n
        · rw [hfi] at h
          cases h
        · rw [hfi] at h
          cases h
          have := ih n hfi
          simp only [List.length_cons]
          omega

/-- C2 amended: when an active EXPLOSIVE projectile hits the `i`-th enemy
(the first one passing broad+narrow phase), every enemy within 5 units of the
impact point — including the struck one — receives half damage from the area
effect, the struck enemy additionally receives the full damage exactly once,
and the projectile is marked inactive and recycled exactly once (below
capacity the pool grows by exactly one entry). -/
theorem explosive_hit_full_plus_area_damage (es : List Enemy)
    (w : WeaponSystem) (b : Bullet) (i : ℕ)
    (hb : b.isActive = true) (hty : b.type = .EXPLOSIVE)
    (hhit : Game.firstHitIdx b es = some i) :
    (∀ (j : ℕ) (hj : j < es.length),
        (Game.processCarBullet es w b).1[j]?
          = some { es[j] with received := (es[j]).received
              ++ (if (es[j]).position.distSq b.position ≤ 5 ^ 2
                  then [b.damage * (1/2)] else [])
              ++ (if j = i then [b.damage] else []) })
      ∧ (Game.processCarBullet es w b).2
          = ((w.recycleBullet { b with isActive := false }).1,
              (w.recycleBullet { b with isActive := false }).2)
      ∧ (w.bulletPool.length < w.maxPoolSize →
          (Game.processCarBullet es w b).2.1.bulletPool.length
            = w.bulletPool.length + 1) := by
  have hilen : i < es.length := firstHitIdx_lt_length b es i hhit
  have hproc : Game.processCarBullet es w b
      = (listModify (Game.createAreaEffect es b.position (b.damage * (1/2))) i
            (fun e => e.takeDamage b.damage),
          (w.recycleBullet { b with isActive := false }).1,
          (w.recycleBullet { b with isActive := false }).2) := by
    unfold Game.processCarBullet
    rw [if_neg (by simp [hb]), hhit, if_pos hty]
  have hLlen : (Game.createAreaEffect es b.position (b.damage * (1/2))).length
      = es.length := by
    simp [Game.createAreaEffect]
  have hiL : i < (Game.createAreaEffect es b.position (b.damage * (1/2))).length := by
    rw [hLlen]
    exact hilen
  have hmod : listModify (Game.createAreaEffect es b.position (b.damage * (1/2)))
        i (fun e => e.takeDamage b.damage)
      = (Game.createAreaEffect es b.position (b.damage * (1/2))).set i
          (((Game.createAreaEffect es b.position (b.damage * (1/2))).get
            ⟨i, hiL⟩).takeDamage b.damage) := by
    unfold listModify
    rw [List.get?_eq_getElem?, List.getElem?_eq_getElem hiL]
    rfl
  have hLget : ∀ (j : ℕ) (hj : j < es.length),
      (Game.createAreaEffect es b.position (b.damage * (1/2)))[j]?
        = some (if (es[j]).position.distSq b.position ≤ 5 ^ 2
            then (es[j]).takeDamage (b.damage * (1/2)) else es[j]) := by
    intro j hj
    simp [Game.createAreaEffect, List.getElem?_eq_getElem hj]
  refine ⟨?_, ?_, ?_⟩
  · intro j hj
    rw [hproc]
    dsimp only
    by_cases hji : j = i
    · subst hji
      rw [hmod, List.getElem?_set_self hiL]
      have hLj : (Game.createAreaEffect es b.position (b.damage * (1/2))).get
          ⟨j, hiL⟩
        = (if (es[j]).position.distSq b.position ≤ 5 ^ 2
            then (es[j]).takeDamage (b.damage * (1/2)) else es[j]) := by
        have h1 := hLget j hj
        rw [List.getElem?_eq_getElem hiL] at h1
        simpa using h1
      rw [hLj]
      split <;> simp [Enemy.takeDamage]
    · rw [hmod, List.getElem?_set_ne (fun h => hji h.symm)]
      rw [hLget j hj]
      split <;> simp [Enemy.takeDamage, hji]
  · rw [hproc]
  · intro hlt
    rw [hproc]
    dsimp only
    unfold WeaponSystem.recycleBullet
    rw [if_pos hlt]
    simp

/-- Witness for the amended C2 at the concrete three-enemy scenario. -/
theorem explosive_hit_full_plus_area_damage_witness :
    (Game.processCarBullet
        [cexEnemy ⟨0,0,0⟩, cexEnemy ⟨3,0,0⟩, cexEnemy ⟨-3,0,0⟩]
        WeaponSystem.init cexBullet).2
      = ((WeaponSystem.init.recycleBullet
            { cexBullet with isActive := false }).1,
          (WeaponSystem.init.recycleBullet
            { cexBullet with isActive := false }).2) :=
  (explosive_hit_full_plus_area_damage
      [cexEnemy ⟨0,0,0⟩, cexEnemy ⟨3,0,0⟩, cexEnemy ⟨-3,0,0⟩]
      WeaponSystem.init cexBullet 0 rfl rfl
      (by norm_num [Game.firstHitIdx, Game.bulletHitsEnemy,
        Game.sphereQuickTest, Game.checkBulletCollision, Game.enemyBounds,
        sqrtLeSqrtAddHalf, boxIntersects, Bullet.boxMin, Bullet.boxMax,
        Enemy.boxMin, Enemy.boxMax, bulletHalfExtents, Vec3.distSq, Vec3.sub,
        Vec3.add, Vec3.smul, Vec3.normSq, Vec3.zero, cexBullet, cexEnemy,
        Bullet.create, Bullet.reset, bulletSpeed])).2.1

/-! ## Claims about the game loop -/

/-- Applying a power-up to the car touches only its health/weapon systems. -/
theorem PowerUp.apply_preserves (p : PowerUp) (c : Car) :
    (p.apply c).position = c.position ∧ (p.apply c).bullets = c.bullets := by
  unfold PowerUp.apply
  split <;> exact ⟨rfl, rfl⟩

/-- The power-up pickup fold touches only the car's health/weapon systems. -/
theorem powerup_fold_preserves (carPos : Vec3) (ps : List PowerUp) :
    ∀ (acc : Car × List PowerUp),
      ((ps.foldl
        (fun (acc : Car × List PowerUp) p =>
          if p.position.distSq carPos < 2 ^ 2 then (p.apply acc.1, acc.2)
          else (acc.1, acc.2 ++ [p])) acc).1.position = acc.1.position
        ∧ (ps.foldl
            (fun (acc : Car × List PowerUp) p =>
              if p.position.distSq carPos < 2 ^ 2 then (p.apply acc.1, acc.2)
              else (acc.1, acc.2 ++ [p])) acc).1.bullets = acc.1.bullets) := by
  induction ps with
  | nil => intro acc; exact ⟨rfl, rfl⟩
  | cons p ps ih =>
      intro acc
      rw [List.foldl_cons]
      constructor
      · rcases (ih (if p.position.distSq carPos < 2 ^ 2 then (p.apply acc.1, acc.2)
            else (acc.1, acc.2 ++ [p]))) with ⟨h1, _⟩
        rw [h1]
        split
        · exact (PowerUp.apply_preserves p acc.1).1
        · rfl
      · rcases (ih (if p.position.distSq carPos < 2 ^ 2 then (p.apply acc.1, acc.2)
            else (acc.1, acc.2 ++ [p]))) with ⟨_, h2⟩
        rw [h2]
        split
        · exact (PowerUp.apply_preserves p acc.1).2
        · rfl

/-- `updatePowerUps` leaves the frame clock, the car position and the car's
bullet list unchanged, and advances the spawn timer by exactly `delta` when
the 10-second spawn threshold is not crossed. -/
theorem updatePowerUps_preserves (g : GameState) (delta : ℚ) :
    (Game.updatePowerUps g delta).lastTime = g.lastTime
      ∧ (Game.updatePowerUps g delta).car.position = g.car.position
      ∧ (Game.updatePowerUps g delta).car.bullets = g.car.bullets
      ∧ (g.powerUpSpawnTimer + delta ≤ 10 →
          (Game.updatePowerUps g delta).powerUpSpawnTimer
            = g.powerUpSpawnTimer + delta) := by
  unfold Game.updatePowerUps
  dsimp only
  have hfold := powerup_fold_preserves g.car.position
    (g.powerUps.map (fun p => p.update delta)) (g.car, [])
  split
  · refine ⟨rfl, hfold.1, hfold.2, ?_⟩
    intro hle
    rename_i hgt
    exact absurd hgt (not_lt.mpr hle)
  · exact ⟨rfl, hfold.1, hfold.2, fun _ => rfl⟩

/-- C9: each frame, the simulation delta fed to the vehicle, projectile and
power-up updates is exactly `min ((time - lastTime) / 1000) 0.1`, and the
frame clock records `time`. -/
theorem tick_delta_clamped (g : GameState) (time : ℚ)
    (hact : g.isGameActive = true) :
    (Game.update g time).lastTime = time
      ∧ (Game.update g time).car.position
        = (g.car.update (min ((time - g.lastTime) / 1000) (1/10))).position
      ∧ (Game.update g time).car.bullets
        = (Game.checkBulletCollisions g.enemies
            ((g.car.update (min ((time - g.lastTime) / 1000) (1/10))).updateBullets
              (min ((time - g.lastTime) / 1000) (1/10)) g.terrain).weaponSystem
            ((g.car.update (min ((time - g.lastTime) / 1000) (1/10))).updateBullets
              (min ((time - g.lastTime) / 1000) (1/10)) g.terrain).bullets).2.2
      ∧ (g.powerUpSpawnTimer + min ((time - g.lastTime) / 1000) (1/10) ≤ 10 →
          (Game.update g time).powerUpSpawnTimer
            = g.powerUpSpawnTimer + min ((time - g.lastTime) / 1000) (1/10)) := by
  unfold Game.update
  dsimp only
  rw [if_neg (by simp [hact])]
  have hpres := updatePowerUps_preserves
    { g with
        lastTime := time
        car := { (g.car.update (min ((time - g.lastTime) / 1000) (1/10))).updateBullets
            (min ((time - g.lastTime) / 1000) (1/10)) g.terrain with
          weaponSystem := (Game.checkBulletCollisions g.enemies
            ((g.car.update (min ((time - g.lastTime) / 1000) (1/10))).updateBullets
              (min ((time - g.lastTime) / 1000) (1/10)) g.terrain).weaponSystem
            ((g.car.update (min ((time - g.lastTime) / 1000) (1/10))).updateBullets
              (min ((time - g.lastTime) / 1000) (1/10)) g.terrain).bullets).2.1
          bullets := (Game.checkBulletCollisions g.enemies
            ((g.car.update (min ((time - g.lastTime) / 1000) (1/10))).updateBullets
              (min ((time - g.lastTime) / 1000) (1/10)) g.terrain).weaponSystem
            ((g.car.update (min ((time - g.lastTime) / 1000) (1/10))).updateBullets
              (min ((time - g.lastTime) / 1000) (1/10)) g.terrain).bullets).2.2 }
        enemies := (Game.checkBulletCollisions g.enemies
            ((g.car.update (min ((time - g.lastTime) / 1000) (1/10))).updateBullets
              (min ((time - g.lastTime) / 1000) (1/10)) g.terrain).weaponSystem
            ((g.car.update (min ((time - g.lastTime) / 1000) (1/10))).updateBullets
              (min ((time - g.lastTime) / 1000) (1/10)) g.terrain).bullets).1 }
    (min ((time - g.lastTime) / 1000) (1/10))
  refine ⟨hpres.1, ?_, hpres.2.2.1, hpres.2.2.2⟩
  rw [hpres.2.1]
  show ((g.car.update (min ((time - g.lastTime) / 1000) (1/10))).updateBullets
      (min ((time - g.lastTime) / 1000) (1/10)) g.terrain).position
    = (g.car.update (min ((time - g.lastTime) / 1000) (1/10))).position
  unfold Car.updateBullets
  rfl

/-- Closed game state for the C9 witness: fresh car, no enemies or power-ups,
flat terrain, frame clock at 0. -/
def witnessGame : GameState :=
  { lastTime := 0
    isGameActive := true
    car := Car.init
    enemies := []
    powerUps := []
    powerUpSpawnTimer := 0
    terrain := fun _ => false
    nextRandomPowerUp := ⟨⟨0,0,0⟩, .HEALTH, 25⟩ }

/-- Witness for C9: a frame at `time = 500` ms after a last frame at 0 — the
raw gap 0.5 s is clamped to 0.1 s and that is what the spawn timer (and every
other subsystem) receives. -/
theorem tick_delta_clamped_witness :
    (Game.update witnessGame 500).lastTime = 500
      ∧ (Game.update witnessGame 500).powerUpSpawnTimer
        = witnessGame.powerUpSpawnTimer
            + min ((500 - witnessGame.lastTime) / 1000) (1/10) :=
  have r := tick_delta_clamped witnessGame 500 rfl
  ⟨r.1, r.2.2.2 (by norm_num [witnessGame])⟩
